import Mathlib

/-!
# TruthScanner front end: request lifecycle and result presentation

A shallow embedding of `frontend/src/App.jsx`.

* `JSNum`, `Json`, `JSVal`: the JavaScript values that the component handles.
  The state variable `out` holds whatever `res.json()` produced, so it ranges
  over all JSON values; `undefined` (the result of reading a missing property)
  is `none` in `JSVal = Option Json`.
* `toBoolean`, `toNumber`, `member`, `optMember`: the language operations that
  the component applies to those values (truthiness, `Number(..)`, `x.k`, `x?.k`).
* `score`: the `useMemo` score normaliser.
* `App`: the element tree returned by the component, kept as a record of its
  data-dependent parts; `render`: that tree put in the document by React, which
  turns child values into text and refuses plain objects.
* `State`, `Sys`, `step`: the three `useState` cells and the transitions that
  keystrokes, submit events and request settlements cause; `userSubmit`: what
  the browser does with a submission attempt on the rendered page.
-/

namespace TruthScanner

/-! ## Values -/

/-- A JavaScript Number. A finite value is given by its exact rational value
(every binary64 value is a rational, and `JSNum.ofRat` rounds the result of an
operation to one); the sign of zero is not tracked (no operation of the
component observes it). -/
inductive JSNum where
  | nan
  | posInf
  | negInf
  | fin (q : ℚ)
  deriving DecidableEq, Repr

/-- A value produced by `JSON.parse` (or built as an object literal of strings).
An object is the list of its own properties, each key occurring once. -/
inductive Json where
  | null
  | bool (b : Bool)
  | num (n : JSNum)
  | str (s : String)
  | arr (xs : List Json)
  | obj (kvs : List (String × Json))

/-- A JavaScript value in an expression: `none` is `undefined`. -/
abbrev JSVal := Option Json

/-- An exception thrown during a render: a TypeError raised by an expression of
the component, or the Error with which React refuses a child. -/
inductive JSError where
  | typeError (msg : String)
  | reactError (msg : String)
  deriving DecidableEq, Repr

/-- The value `Number.isFinite` tests for. -/
def JSNum.isFinite : JSNum → Bool
  | .fin _ => true
  | _ => false

/-- The function `Math.min` on two arguments. -/
def JSNum.min : JSNum → JSNum → JSNum
  | .nan, _ => .nan
  | _, .nan => .nan
  | .negInf, _ => .negInf
  | _, .negInf => .negInf
  | .posInf, b => b
  | a, .posInf => a
  | .fin a, .fin b => .fin (Min.min a b)

/-- The function `Math.max` on two arguments. -/
def JSNum.max : JSNum → JSNum → JSNum
  | .nan, _ => .nan
  | _, .nan => .nan
  | .posInf, _ => .posInf
  | _, .posInf => .posInf
  | .negInf, b => b
  | a, .negInf => a
  | .fin a, .fin b => .fin (Max.max a b)

/-- The abstract operation ToBoolean on a JSON value. -/
def Json.truthy : Json → Bool
  | .null => false
  | .bool b => b
  | .num .nan => false
  | .num (.fin q) => decide (q ≠ 0)
  | .num _ => true
  | .str s => decide (s ≠ "")
  | .arr _ => true
  | .obj _ => true

/-- The abstract operation ToBoolean: `undefined` is falsy. -/
def toBoolean : JSVal → Bool
  | none => false
  | some v => v.truthy

/-- Own-property lookup on the property list of an object. -/
def lookupKey (k : String) : List (String × Json) → JSVal
  | [] => none
  | (k1, v) :: rest => if k1 = k then some v else lookupKey k rest

/-- The `length` of a string: its number of UTF-16 code units. -/
def utf16Length (s : String) : Nat :=
  s.toList.foldl (fun n c => n + (if 0x10000 ≤ c.toNat then 2 else 1)) 0

/-- The value of `v.k` for a value `v` that is neither `null` nor `undefined`, for
the keys that the component reads. An object yields its own property. An
array and a string have the own property `length`; every other key the
component reads is defined by no built-in prototype and yields `undefined`. -/
def Json.prop (v : Json) (k : String) : JSVal :=
  match v with
  | .obj kvs => lookupKey k kvs
  | .arr xs => if k = "length" then some (.num (.fin xs.length)) else none
  | .str s => if k = "length" then some (.num (.fin (utf16Length s))) else none
  | _ => none

/-- The expression `x.k`: reading a property of `null` or `undefined` throws. -/
def member (x : JSVal) (k : String) : Except JSError JSVal :=
  match x with
  | none => .error (.typeError ("Cannot read properties of undefined, reading " ++ k))
  | some .null => .error (.typeError ("Cannot read properties of null, reading " ++ k))
  | some v => .ok (v.prop k)

/-- The expression `x?.k`: `undefined` when `x` is `null` or `undefined`. -/
def optMember (x : JSVal) (k : String) : JSVal :=
  match x with
  | none => none
  | some .null => none
  | some v => v.prop k

/-! ## `Number(..)` -/

/-- The code points that StringToNumber strips from both ends of a string
(the WhiteSpace and LineTerminator productions). -/
def isStrWhiteSpace (c : Char) : Bool :=
  let n := c.toNat
  n == 0x09 || n == 0x0A || n == 0x0B || n == 0x0C || n == 0x0D || n == 0x20 ||
  n == 0xA0 || n == 0x1680 || (0x2000 ≤ n && n ≤ 0x200A) || n == 0x2028 ||
  n == 0x2029 || n == 0x202F || n == 0x205F || n == 0x3000 || n == 0xFEFF

/-- Removes leading and trailing white space. -/
def trimWhiteSpace (cs : List Char) : List Char :=
  ((cs.dropWhile isStrWhiteSpace).reverse.dropWhile isStrWhiteSpace).reverse

/-- The value of a character as a digit in the given base, if it is one. -/
def digitValue (base : Nat) (c : Char) : Option Nat :=
  let n := c.toNat
  let v := if 48 ≤ n && n ≤ 57 then n - 48
    else if 97 ≤ n && n ≤ 102 then n - 87
    else if 65 ≤ n && n ≤ 70 then n - 55
    else base
  if v < base then some v else none

/-- The value of a string of digits in the given base, most significant
first, starting from the accumulator; `none` if a character is not a digit. -/
def digitsFrom (base : Nat) (acc : Nat) : List Char → Option Nat
  | [] => some acc
  | c :: cs =>
    match digitValue base c with
    | some d => digitsFrom base (acc * base + d) cs
    | none => none

/-- The value of a non-empty string of digits in the given base. -/
def digitsIn (base : Nat) (cs : List Char) : Option Nat :=
  if cs.isEmpty then none else digitsFrom base 0 cs

/-- The exponent of a positive rational: the integer `e` with `2^e ≤ a < 2^(e+1)`. -/
def floorLog2 (a : ℚ) : ℤ :=
  let e : ℤ := (Nat.log2 a.num.natAbs : ℤ) - (Nat.log2 a.den : ℤ)
  if (2 : ℚ) ^ e ≤ a then e else e - 1

/-- The nearest integer to a non-negative rational, a tie going to the even one. -/
def roundHalfEven (m : ℚ) : ℤ :=
  let f := Rat.floor m
  let r := m - (f : ℚ)
  if r < 1 / 2 then f
  else if 1 / 2 < r then f + 1
  else if f % 2 = 0 then f else f + 1

/-- Rounding of a mathematical value to a Number (binary64, round to nearest,
ties to even): 53 significant bits for a normal value, multiples of `2^-1074`
below `2^-1022`, and an infinity when the rounded magnitude reaches `2^1024`. -/
def JSNum.ofRat (q : ℚ) : JSNum :=
  if q = 0 then .fin 0
  else
    let a := |q|
    let e := Max.max (floorLog2 a) (-1022)
    let ulp : ℚ := (2 : ℚ) ^ (e - 52)
    let r : ℚ := (roundHalfEven (a / ulp) : ℚ) * ulp
    if (2 : ℚ) ^ 1024 ≤ r then (if 0 < q then .posInf else .negInf)
    else .fin (if 0 < q then r else -r)

/-- Unary minus. -/
def JSNum.neg : JSNum → JSNum
  | .nan => .nan
  | .posInf => .negInf
  | .negInf => .posInf
  | .fin q => .fin (-q)

/-- Splits a string at the first character satisfying `p`: the part before it,
and the part after it when there is such a character. -/
def splitAtFirst (p : Char → Bool) (cs : List Char) : List Char × Option (List Char) :=
  (cs.takeWhile (fun c => !p c),
    match cs.dropWhile (fun c => !p c) with
    | [] => none
    | _ :: rest => some rest)

/-- The production SignedInteger of an exponent part. -/
def signedInteger (cs : List Char) : Option Int :=
  match cs with
  | '+' :: ds => (digitsIn 10 ds).map Int.ofNat
  | '-' :: ds => (digitsIn 10 ds).map (fun n => - Int.ofNat n)
  | ds => (digitsIn 10 ds).map Int.ofNat

/-- The production StrUnsignedDecimalLiteral: `Infinity`, or decimal digits with
an optional fraction and an optional exponent; `none` when the text does not
match. -/
def unsignedDecimal (cs : List Char) : Option JSNum :=
  if cs = "Infinity".toList then some .posInf
  else
    let (mant, ex) := splitAtFirst (fun c => c == 'e' || c == 'E') cs
    let (ip, fp) := splitAtFirst (fun c => c == '.') mant
    let fpd := fp.getD []
    match (match ex with
      | none => some (0 : Int)
      | some e => signedInteger e) with
    | none => none
    | some e =>
      match digitsFrom 10 0 ip, digitsFrom 10 0 fpd with
      | some i, some f =>
        if ip.isEmpty && fpd.isEmpty then none
        else some (JSNum.ofRat (((i : ℚ) + (f : ℚ) / (10 : ℚ) ^ fpd.length) * (10 : ℚ) ^ e))
      | _, _ => none

/-- The production NonDecimalIntegerLiteral after its two-character marker. -/
def nonDecimal (base : Nat) (ds : List Char) : JSNum :=
  match digitsIn base ds with
  | some n => JSNum.ofRat (n : ℚ)
  | none => .nan

/-- The abstract operation StringToNumber. -/
def stringToNumber (s : String) : JSNum :=
  match trimWhiteSpace s.toList with
  | [] => .fin 0
  | '0' :: 'x' :: ds => nonDecimal 16 ds
  | '0' :: 'X' :: ds => nonDecimal 16 ds
  | '0' :: 'o' :: ds => nonDecimal 8 ds
  | '0' :: 'O' :: ds => nonDecimal 8 ds
  | '0' :: 'b' :: ds => nonDecimal 2 ds
  | '0' :: 'B' :: ds => nonDecimal 2 ds
  | '+' :: ds => (unsignedDecimal ds).getD .nan
  | '-' :: ds => ((unsignedDecimal ds).map JSNum.neg).getD .nan
  | cs => (unsignedDecimal cs).getD .nan

mutual
/-- Whether ToString of the value completes. An object is converted through
`Object.prototype.toString` unless it has an own property `toString`; such a
property of a parsed object is never callable, and the conversion then throws
a TypeError. An array is converted by `join`, which converts every element
other than `null`. -/
def Json.stringifiable : Json → Bool
  | .obj kvs => (lookupKey "toString" kvs).isNone
  | .arr xs => allStringifiable xs
  | _ => true
/-- Whether ToString completes on every element of a list. -/
def allStringifiable : List Json → Bool
  | [] => true
  | x :: xs => x.stringifiable && allStringifiable xs
end

mutual
/-- The number that `Number(v)` yields when the conversion completes. An
object becomes the string `[object Object]`, hence NaN. An array becomes the
comma-separated strings of its elements and that string is parsed. -/
def Json.numberValue : Json → JSNum
  | .null => .fin 0
  | .bool b => .fin (if b then 1 else 0)
  | .num n => n
  | .str s => stringToNumber s
  | .obj _ => .nan
  | .arr xs => joinedNumber xs
/-- The number parsed from the `join` of an array. Two or more elements give a
string with a comma, which is NaN. A single element gives its own string: empty
for `null`, a word for a boolean, the digits of a number (which parse back to
that number), the same text for a nested array. -/
def joinedNumber : List Json → JSNum
  | [] => .fin 0
  | [.null] => .fin 0
  | [.bool _] => .nan
  | [.num n] => n
  | [.str s] => stringToNumber s
  | [.obj _] => .nan
  | [.arr ys] => joinedNumber ys
  | _ :: _ :: _ => .nan
end

/-- The call `Number(v)`: the abstract operation ToNumber. -/
def toNumber : JSVal → Except JSError JSNum
  | none => .ok .nan
  | some v =>
    if v.stringifiable then .ok v.numberValue
    else .error (.typeError "Cannot convert object to primitive value")

/-! ## The score normaliser -/

/-- The `score` memo of `App`: `null` is `none`. -/
def score (out : Json) : Except JSError (Option JSNum) := do
  let s ← toNumber (optMember (some out) "propaganda_score")
  if !s.isFinite then return none
  return some (JSNum.max (.fin 0) (JSNum.min (.fin 10) s))

/-! ## The element tree returned by `App` -/

/-- The expression `a || b`. -/
def orElse (a b : JSVal) : JSVal :=
  if toBoolean a then a else b

/-- The comparison `v === 0`. -/
def strictEqZero : JSVal → Bool
  | some (.num (.fin q)) => decide (q = 0)
  | _ => false

/-- The loop of `Array.prototype.map`: the callback is applied to the elements in
index order, starting at index `i`, and the first exception ends the loop. -/
def mapFrom {α : Type} (f : Json → Nat → Except JSError α) (i : Nat) :
    List Json → Except JSError (List α)
  | [] => .ok []
  | x :: xs => do
    let y ← f x i
    let ys ← mapFrom f (i + 1) xs
    return y :: ys

/-- The call `v.map(f)` with a callback of the element and its index. Only an
array has a callable `map`; on any other value the call throws a TypeError
(a parsed object may have an own property `map`, which is not callable). -/
def callMap {α : Type} (v : JSVal) (f : Json → Nat → Except JSError α) :
    Except JSError (List α) :=
  match v with
  | some (.arr xs) => mapFrom f 0 xs
  | _ => .error (.typeError "map is not a function")

/-- The value of a child position `c && <element>`: the falsy value of `c`, or
the element. -/
inductive Slot (α : Type) where
  | value (v : JSVal)
  | element (a : α)

/-- The section of a list: the placeholder paragraph, or one entry per element. -/
inductive ListSection (α : Type) where
  | placeholder (text : String)
  | entries (es : List α)

/-- One collapsible entry of the factual-errors list, with the values in its
three child positions. -/
structure FactualEntry where
  key : Nat
  statement : JSVal
  correction : JSVal
  why_wrong : JSVal

/-- One entry of the logical-fallacies list, with the values in its three child
positions. -/
structure LogicalEntry where
  key : Nat
  fallacy : JSVal
  quote : JSVal
  explanation : JSVal

/-- The radial gauge: `value` is `(score / 10) * 100` and `label` is the score that
the element shows through `toFixed(1)` before the text `/10`. -/
structure Gauge where
  value : JSNum
  label : JSNum

/-- The data-dependent parts of the result grid. -/
structure ResultView where
  gauge : Slot Gauge
  reasoning : JSVal
  summary : JSVal
  factual : ListSection FactualEntry
  logical : ListSection LogicalEntry

/-- The data-dependent parts of the tree returned by `App`. -/
structure View where
  overlay : Option String
  inputValue : String
  buttonDisabled : Bool
  buttonLabel : String
  banner : Slot JSVal
  results : Slot ResultView

/-- The component `LoadingOverlay` with its `text` left at the default: `null`
when `show` is false, otherwise the card with that heading. -/
def LoadingOverlay (isShown : Bool) : Option String :=
  if !isShown then none else some "Analyzing video..."

/-- The expression `(score / 10) * 100`: each of the two operations rounds its
exact result to a Number. -/
def percent : JSNum → JSNum
  | .fin q =>
    match JSNum.ofRat (q / 10) with
    | .fin r => JSNum.ofRat (r * 100)
    | n => n
  | n => n

/-- The child `score !== null && <gauge>`. -/
def gaugeSlot (sc : Option JSNum) : Slot Gauge :=
  match sc with
  | some s => .element { value := percent s, label := s }
  | none => .value (some (.bool false))

/-- The child `out.score_reasoning || "No reasoning returned."`. -/
def reasoningText (out : Json) : Except JSError JSVal := do
  let v ← member (some out) "score_reasoning"
  return orElse v (some (.str "No reasoning returned."))

/-- The child `out.summary || "No summary returned."`. -/
def summaryText (out : Json) : Except JSError JSVal := do
  let v ← member (some out) "summary"
  return orElse v (some (.str "No summary returned."))

/-- The callback of the factual-errors `map`. -/
def factualEntry (x : Json) (i : Nat) : Except JSError FactualEntry := do
  let statement ← member (some x) "statement"
  let correction ← member (some x) "correction"
  let why_wrong ← member (some x) "why_wrong"
  return { key := i, statement := statement, correction := correction, why_wrong := why_wrong }

/-- The callback of the logical-fallacies `map`. -/
def logicalEntry (x : Json) (i : Nat) : Except JSError LogicalEntry := do
  let fallacy ← member (some x) "fallacy"
  let quote ← member (some x) "quote"
  let explanation ← member (some x) "explanation"
  return { key := i, fallacy := fallacy, quote := quote, explanation := explanation }

/-- The conditional `(out.factual_errors || []).length === 0 ? .. : ..map(..)`. -/
def factualSection (out : Json) : Except JSError (ListSection FactualEntry) := do
  let xs := orElse (← member (some out) "factual_errors") (some (.arr []))
  if strictEqZero (← member xs "length") then
    return .placeholder "No factual errors found (or none detected)."
  else
    let ys := orElse (← member (some out) "factual_errors") (some (.arr []))
    return .entries (← callMap ys factualEntry)

/-- The conditional `(out.logical_errors || []).length === 0 ? .. : ..map(..)`. -/
def logicalSection (out : Json) : Except JSError (ListSection LogicalEntry) := do
  let xs := orElse (← member (some out) "logical_errors") (some (.arr []))
  if strictEqZero (← member xs "length") then
    return .placeholder "None detected."
  else
    let ys := orElse (← member (some out) "logical_errors") (some (.arr []))
    return .entries (← callMap ys logicalEntry)

/-- The result grid, its children evaluated in document order. -/
def renderResults (out : Json) (sc : Option JSNum) : Except JSError ResultView := do
  let gauge := gaugeSlot sc
  let reasoning ← reasoningText out
  let summary ← summaryText out
  let factual ← factualSection out
  let logical ← logicalSection out
  return { gauge := gauge, reasoning := reasoning, summary := summary,
           factual := factual, logical := logical }

/-- The child `out?.error && <alert>`, the alert holding `out.error`. -/
def bannerSlot (out : Json) : Except JSError (Slot JSVal) := do
  let e := optMember (some out) "error"
  if toBoolean e then
    return .element (← member (some out) "error")
  else
    return .value e

/-- The child `out && !out.error && <grid>`. -/
def resultsSlot (out : Json) (sc : Option JSNum) : Except JSError (Slot ResultView) := do
  if !toBoolean (some out) then
    return .value (some out)
  else
    let e ← member (some out) "error"
    if toBoolean e then
      return .value (some (.bool false))
    else
      return .element (← renderResults out sc)

/-! ## State and transitions -/

/-- The three `useState` cells of `App`. -/
structure State where
  url : String
  out : Json
  loading : Bool

/-- The initial values of the three cells. -/
def State.initial : State :=
  { url := "", out := .null, loading := false }

/-- One call of the function component: the memo runs first, then the tree is
built. -/
def App (s : State) : Except JSError View := do
  let sc ← score s.out
  let overlay := LoadingOverlay s.loading
  let banner ← bannerSlot s.out
  let results ← resultsSlot s.out sc
  return { overlay := overlay, inputValue := s.url, buttonDisabled := s.loading,
           buttonLabel := if s.loading then "Working..." else "Analyze",
           banner := banner, results := results }

/-! ## What React puts in the document -/

/-- A text node of the document: the characters of a string child, or the
digits of a number child. -/
inductive TextNode where
  | text (s : String)
  | number (n : JSNum)
  deriving DecidableEq, Repr

mutual
/-- Whether React accepts the value as a child. A plain object is refused (a
parsed object is never a React element); an array is accepted when all its
elements are. -/
def Json.displayable : Json → Bool
  | .obj _ => false
  | .arr xs => allDisplayable xs
  | _ => true
/-- Whether React accepts every element of a list as a child. -/
def allDisplayable : List Json → Bool
  | [] => true
  | x :: xs => x.displayable && allDisplayable xs
end

mutual
/-- The text nodes of an accepted child: none for `null`, a boolean and the
empty string, one for any other string and for a number, and those of its
elements, in order, for an array. -/
def Json.text : Json → List TextNode
  | .null => []
  | .bool _ => []
  | .num n => [.number n]
  | .str s => if s = "" then [] else [.text s]
  | .arr xs => textOfAll xs
  | .obj _ => []
/-- The text nodes of the elements of a list, in order. -/
def textOfAll : List Json → List TextNode
  | [] => []
  | x :: xs => x.text ++ textOfAll xs
end

/-- Whether React accepts the value of a child position; `undefined` is accepted. -/
def childOk : JSVal → Bool
  | none => true
  | some v => v.displayable

/-- The text nodes of an accepted child position; `undefined` gives none. -/
def childText : JSVal → List TextNode
  | none => []
  | some v => v.text

/-- What React does with the value of a child position `{v}`: the text nodes, or
the Error for a plain object. -/
def renderChild (v : JSVal) : Except JSError (List TextNode) :=
  if childOk v then .ok (childText v)
  else .error (.reactError "Objects are not valid as a React child")

/-- A factual-errors entry in the document. -/
structure FactualShown where
  key : Nat
  statement : List TextNode
  correction : List TextNode
  why_wrong : List TextNode

/-- A logical-fallacies entry in the document. -/
structure LogicalShown where
  key : Nat
  fallacy : List TextNode
  quote : List TextNode
  explanation : List TextNode

/-- A child position of the document: the text of a value, or the element. -/
inductive Block (β : Type) where
  | text (t : List TextNode)
  | element (b : β)

/-- The data-dependent parts of the result grid in the document. -/
structure ResultShown where
  gauge : Block Gauge
  reasoning : List TextNode
  summary : List TextNode
  factual : ListSection FactualShown
  logical : ListSection LogicalShown

/-- The data-dependent parts of the document. -/
structure Page where
  overlay : Option String
  inputValue : String
  buttonDisabled : Bool
  buttonLabel : String
  banner : Block (List TextNode)
  results : Block ResultShown

/-- The three child positions of a factual-errors entry, in document order. -/
def displayFactualEntry (e : FactualEntry) : Except JSError FactualShown := do
  let statement ← renderChild e.statement
  let correction ← renderChild e.correction
  let why_wrong ← renderChild e.why_wrong
  return { key := e.key, statement := statement, correction := correction,
           why_wrong := why_wrong }

/-- The three child positions of a logical-fallacies entry, in document order. -/
def displayLogicalEntry (e : LogicalEntry) : Except JSError LogicalShown := do
  let fallacy ← renderChild e.fallacy
  let quote ← renderChild e.quote
  let explanation ← renderChild e.explanation
  return { key := e.key, fallacy := fallacy, quote := quote, explanation := explanation }

/-- The elements of a list of children, in order; the first failure ends the
render. -/
def displayAll {α β : Type} (f : α → Except JSError β) : List α → Except JSError (List β)
  | [] => .ok []
  | a :: rest => do
    let b ← f a
    let bs ← displayAll f rest
    return b :: bs

/-- A list section in the document. -/
def displaySection {α β : Type} (f : α → Except JSError β) :
    ListSection α → Except JSError (ListSection β)
  | .placeholder text => .ok (.placeholder text)
  | .entries es => do
    let bs ← displayAll f es
    return .entries bs

/-- A child position `c && <element>` in the document. -/
def displaySlot {α β : Type} (f : α → Except JSError β) : Slot α → Except JSError (Block β)
  | .value v => do
    let t ← renderChild v
    return .text t
  | .element a => do
    let b ← f a
    return .element b

/-- The result grid in the document, its children in document order. -/
def displayResults (r : ResultView) : Except JSError ResultShown := do
  let gauge ← displaySlot (fun g => .ok g) r.gauge
  let reasoning ← renderChild r.reasoning
  let summary ← renderChild r.summary
  let factual ← displaySection displayFactualEntry r.factual
  let logical ← displaySection displayLogicalEntry r.logical
  return { gauge := gauge, reasoning := reasoning, summary := summary,
           factual := factual, logical := logical }

/-- The tree returned by `App` in the document. -/
def displayView (v : View) : Except JSError Page := do
  let banner ← displaySlot renderChild v.banner
  let results ← displaySlot displayResults v.results
  return { overlay := v.overlay, inputValue := v.inputValue,
           buttonDisabled := v.buttonDisabled, buttonLabel := v.buttonLabel,
           banner := banner, results := results }

/-- One render of the page: `App` builds the tree and React puts it in the
document. An exception at either stage leaves no page. -/
def render (s : State) : Except JSError Page := do
  let v ← App s
  displayView v

/-- The factual-errors section in the document. -/
def factualDisplayed (out : Json) : Except JSError (ListSection FactualShown) := do
  let sec ← factualSection out
  displaySection displayFactualEntry sec

/-- The logical-fallacies section in the document. -/
def logicalDisplayed (out : Json) : Except JSError (ListSection LogicalShown) := do
  let sec ← logicalSection out
  displaySection displayLogicalEntry sec

/-! ## The request lifecycle -/

/-- The kinds of exception with which `fetch` and `Response.json` reject: a
TypeError (network failure, unusable body), a SyntaxError (the body is not
JSON) and an AbortError. -/
inductive ErrorName where
  | TypeError
  | SyntaxError
  | AbortError
  deriving DecidableEq, Repr

/-- The `name` property of such an exception. -/
def ErrorName.text : ErrorName → String
  | .TypeError => "TypeError"
  | .SyntaxError => "SyntaxError"
  | .AbortError => "AbortError"

/-- The exception caught by `analyze`. -/
structure Thrown where
  name : ErrorName
  message : String

/-- The call `String(err)`, through `Error.prototype.toString`: the name alone
when the message is empty, otherwise the name, a colon and the message. -/
def Thrown.toString (e : Thrown) : String :=
  if e.message = "" then e.name.text else e.name.text ++ ": " ++ e.message

/-- How the awaited part of `analyze` ends: `res.json()` yields a value, or one
of the two awaited calls throws. -/
inductive Outcome where
  | body (data : Json)
  | throws (err : Thrown)

/-- The value that `analyze` passes to `setOut` when the request ends. -/
def Outcome.result : Outcome → Json
  | .body data => data
  | .throws err => .obj [("error", .str err.toString)]

/-- The component state together with the requests in flight, each recorded by
the `url` of its body. -/
structure Sys where
  ui : State
  pending : List String

/-- The page as first mounted. -/
def Sys.initial : Sys :=
  { ui := State.initial, pending := [] }

/-- The part of `analyze` before its first `await`: `setOut(null)`,
`setLoading(true)` and the `fetch` call carrying the current `url`. -/
def analyzeStart (s : Sys) : Sys :=
  { ui := { url := s.ui.url, out := .null, loading := true },
    pending := s.pending ++ [s.ui.url] }

/-- The part of `analyze` after the awaited calls, for the request at position
`i`: `setOut` of the result, then `setLoading(false)` in the `finally` block.
Both updates are queued in one continuation and applied in one render. -/
def analyzeSettle (s : Sys) (i : Nat) (o : Outcome) : Sys :=
  if i < s.pending.length then
    { ui := { url := s.ui.url, out := o.result, loading := false },
      pending := s.pending.eraseIdx i }
  else s

/-- What can happen to the component: a keystroke in the url field, the
dispatch of the form's submit event, the end of a request in flight. -/
inductive Event where
  | input (text : String)
  | submit
  | settle (i : Nat) (o : Outcome)

/-- One transition. The submit event runs `analyze`, which has no guard of its
own: whenever the event is dispatched a request is issued. -/
def step (s : Sys) : Event → Sys
  | .input text => { ui := { url := text, out := s.ui.out, loading := s.ui.loading },
                     pending := s.pending }
  | .submit => analyzeStart s
  | .settle i o => analyzeSettle s i o

/-- A user's attempt to submit the form (a click on the button, or Enter in the
url field), as the browser handles it on the rendered page. The submit event is
dispatched only when there is a page, its submit button is not disabled, and
the `required` field of type `url` is valid: non-empty and a URL, the latter
being the test `validUrl` of the browser. Otherwise nothing happens. -/
def userSubmit (validUrl : String → Bool) (s : Sys) : Sys :=
  match render s.ui with
  | .error _ => s
  | .ok p =>
    if p.buttonDisabled then s
    else if p.inputValue = "" || !validUrl p.inputValue then s
    else step s .submit

/-- The states that the page can reach from its initial state. -/
inductive Reachable : Sys → Prop where
  | initial : Reachable Sys.initial
  | step (s : Sys) (e : Event) : Reachable s → Reachable (step s e)

/-- The condition of the error banner, `out?.error`. -/
def showsBanner (out : Json) : Bool :=
  toBoolean (optMember (some out) "error")

/-- The condition of the result grid, `out && !out.error`. -/
def showsResults (out : Json) : Bool :=
  toBoolean (some out) && !toBoolean (out.prop "error")

/-- The four phases of the specification. -/
inductive Phase where
  | Idle
  | Loading
  | Success
  | Failure
  deriving DecidableEq, Repr

/-- The phase of a state in the words of the specification: Loading while
`loading` is set; otherwise Failure when the error banner is rendered, Success
when the result sections are rendered, and Idle when neither is. -/
def phase (s : State) : Phase :=
  if s.loading then .Loading
  else if showsBanner s.out then .Failure
  else if showsResults s.out then .Success
  else .Idle

/-! ## The score normaliser: properties -/

theorem JSNum.clamp_fin (q : ℚ) :
    JSNum.max (.fin 0) (JSNum.min (.fin 10) (.fin q)) = .fin (Max.max 0 (Min.min 10 q)) := rfl

theorem score_eq_of_toNumber (out : Json) (n : JSNum)
    (h : toNumber (optMember (some out) "propaganda_score") = .ok n) :
    score out = .ok (if n.isFinite then some (JSNum.max (.fin 0) (JSNum.min (.fin 10) n)) else none) := by
  unfold score
  rw [h]
  cases n <;> rfl

theorem score_of_num (q : ℚ) :
    score (.obj [("propaganda_score", .num (.fin q))]) = .ok (some (.fin (Max.max 0 (Min.min 10 q)))) := by
  rw [score_eq_of_toNumber (.obj [("propaganda_score", .num (.fin q))]) (.fin q) rfl]
  rfl

theorem score_some_bounds (out : Json) (d : JSNum) (h : score out = .ok (some d)) :
    ∃ q : ℚ, d = .fin q ∧ 0 ≤ q ∧ q ≤ 10 := by
  cases hn : toNumber (optMember (some out) "propaganda_score") with
  | error e =>
    unfold score at h
    rw [hn] at h
    cases h
  | ok n =>
    rw [score_eq_of_toNumber out n hn] at h
    cases n with
    | fin q =>
      simp only [JSNum.isFinite, if_true, JSNum.clamp_fin] at h
      injection h with h
      injection h with h
      exact ⟨_, h.symm, le_max_left _ _, max_le (by norm_num) (min_le_left _ _)⟩
    | nan => cases h
    | posInf => cases h
    | negInf => cases h

theorem toNumber_completes_iff (v : Json) :
    (∃ n, toNumber (some v) = .ok n) ↔ v.stringifiable = true := by
  unfold toNumber
  cases hv : v.stringifiable <;> simp [hv]

/-- C1 (as amended): whenever the coercion `Number(out?.propaganda_score)` completes
with a number `n`, the score memo returns absent exactly when `n` is not
finite, returns `max(0, min(10, n))` when it is, and every present score lies
in the closed interval from 0 to 10; 7.3 gives 7.3, 15 gives 10, -4 gives 0
and the string abc gives absent. -/
theorem score_normalizes (out : Json) (n : JSNum)
    (h : toNumber (optMember (some out) "propaganda_score") = .ok n) :
    (score out = .ok none ↔ n.isFinite = false) ∧
    (∀ q : ℚ, n = .fin q → score out = .ok (some (.fin (Max.max 0 (Min.min 10 q))))) ∧
    (∀ d : JSNum, score out = .ok (some d) → ∃ q : ℚ, d = .fin q ∧ 0 ≤ q ∧ q ≤ 10) ∧
    score (.obj [("propaganda_score", .num (.fin (73 / 10)))]) = .ok (some (.fin (73 / 10))) ∧
    score (.obj [("propaganda_score", .num (.fin 15))]) = .ok (some (.fin 10)) ∧
    score (.obj [("propaganda_score", .num (.fin (-4)))]) = .ok (some (.fin 0)) ∧
    score (.obj [("propaganda_score", .str "abc")]) = .ok none := by
  refine ⟨?_, ?_, fun d hd => score_some_bounds out d hd, ?_, ?_, ?_, rfl⟩
  · rw [score_eq_of_toNumber out n h]
    cases n <;> simp [JSNum.isFinite]
  · intro q hq
    subst hq
    rw [score_eq_of_toNumber out _ h]
    rfl
  · rw [score_of_num]
    norm_num
  · rw [score_of_num]
    norm_num
  · rw [score_of_num]
    norm_num

/-- C1 witness: the payload with score 12 coerces to the number 12. -/
theorem score_normalizes_witness :
    score (.obj [("propaganda_score", .num (.fin 12))]) = .ok (some (.fin (Max.max 0 (Min.min 10 12)))) :=
  (score_normalizes (.obj [("propaganda_score", .num (.fin 12))]) (.fin 12) rfl).2.1 12 rfl

/-- C1 (as stated) fails: for the payload whose `propaganda_score` is an object
with an own property `toString`, the coercion gives no finite number, and the
score memo does not return absent: it throws a TypeError. -/
theorem score_throws_on_uncoercible :
    (¬ ∃ q : ℚ, toNumber (optMember
        (some (.obj [("propaganda_score", .obj [("toString", .num (.fin 1))])]))
        "propaganda_score") = .ok (.fin q)) ∧
    score (.obj [("propaganda_score", .obj [("toString", .num (.fin 1))])])
      = .error (.typeError "Cannot convert object to primitive value") ∧
    score (.obj [("propaganda_score", .obj [("toString", .num (.fin 1))])]) ≠ .ok none := by
  refine ⟨?_, rfl, ?_⟩
  · rintro ⟨q, hq⟩
    cases hq
  · intro h
    cases h

/-- C2: for the payload whose `propaganda_score` is `null` the coercion gives 0, so
the score memo returns 0 and `App` renders the gauge at 0; for the payload
without the field the memo returns absent and the gauge child is `false`. -/
theorem score_of_null_is_zero :
    score (.obj [("propaganda_score", .null)]) = .ok (some (.fin 0)) ∧
    (∃ v r, App { url := "", out := .obj [("propaganda_score", .null)], loading := false } = .ok v ∧
      v.results = .element r ∧ r.gauge = .element { value := percent (.fin 0), label := .fin 0 }) ∧
    score (.obj []) = .ok none ∧
    (∃ v r, App { url := "", out := .obj [], loading := false } = .ok v ∧
      v.results = .element r ∧ r.gauge = .value (some (.bool false))) :=
  ⟨rfl, ⟨_, _, rfl, rfl, rfl⟩, rfl, ⟨_, _, rfl, rfl, rfl⟩⟩

/-! ## The result sections: properties -/

theorem member_of_truthy (out : Json) (k : String) (h : out.truthy = true) :
    member (some out) k = .ok (out.prop k) := by
  cases out <;> first | rfl | cases h

theorem truthy_of_showsResults (out : Json) (h : showsResults out = true) :
    out.truthy = true := by
  simp only [showsResults, toBoolean, Bool.and_eq_true] at h
  exact h.1

theorem listSection_of_falsy {α : Type} (out : Json) (k text : String)
    (f : Json → Nat → Except JSError α)
    (ht : out.truthy = true) (hv : toBoolean (out.prop k) = false) :
    (do
      let xs := orElse (← member (some out) k) (some (.arr []))
      if strictEqZero (← member xs "length") then
        return ListSection.placeholder text
      else
        let ys := orElse (← member (some out) k) (some (.arr []))
        return ListSection.entries (← callMap ys f)) = .ok (.placeholder text) := by
  rw [member_of_truthy out k ht]
  simp only [bind, Except.bind, orElse, hv]
  rfl

/-- C3 (as amended): for every non-error payload, if `factual_errors`
(respectively `logical_errors`) is absent or is a falsy value (`null`, `false`,
0, the empty string), the section is its empty-state placeholder and its
evaluation does not throw. -/
theorem falsy_list_renders_placeholder (out : Json) (h : showsResults out = true) :
    (toBoolean (out.prop "factual_errors") = false →
      factualSection out = .ok (.placeholder "No factual errors found (or none detected).")) ∧
    (toBoolean (out.prop "logical_errors") = false →
      logicalSection out = .ok (.placeholder "None detected.")) :=
  ⟨fun hv => listSection_of_falsy out "factual_errors" _ factualEntry
      (truthy_of_showsResults out h) hv,
   fun hv => listSection_of_falsy out "logical_errors" _ logicalEntry
      (truthy_of_showsResults out h) hv⟩

/-- C3 witness: a payload with `factual_errors` absent and `logical_errors` null. -/
theorem falsy_list_renders_placeholder_witness :
    factualSection (.obj [("logical_errors", .null)])
      = .ok (.placeholder "No factual errors found (or none detected).") ∧
    logicalSection (.obj [("logical_errors", .null)]) = .ok (.placeholder "None detected.") :=
  ⟨(falsy_list_renders_placeholder (.obj [("logical_errors", .null)]) rfl).1 rfl,
   (falsy_list_renders_placeholder (.obj [("logical_errors", .null)]) rfl).2 rfl⟩

/-- C3 (as stated) fails: with `factual_errors` a non-empty string, and with
`logical_errors` a number, a boolean or a plain object, the payload is a
non-error payload, no placeholder is rendered, and the section throws a
TypeError because the value has no callable `map`. -/
theorem non_array_list_throws :
    showsResults (.obj [("factual_errors", .str "abc")]) = true ∧
    factualSection (.obj [("factual_errors", .str "abc")])
      = .error (.typeError "map is not a function") ∧
    logicalSection (.obj [("logical_errors", .num (.fin 5))])
      = .error (.typeError "map is not a function") ∧
    logicalSection (.obj [("logical_errors", .bool true)])
      = .error (.typeError "map is not a function") ∧
    logicalSection (.obj [("logical_errors", .obj [])])
      = .error (.typeError "map is not a function") :=
  ⟨rfl, rfl, rfl, rfl, rfl⟩

theorem factualEntry_of_ne_null (x : Json) (i : Nat) (h : x ≠ .null) :
    factualEntry x i = .ok
      { key := i, statement := x.prop "statement",
        correction := x.prop "correction", why_wrong := x.prop "why_wrong" } := by
  cases x <;> first | rfl | exact absurd rfl h

theorem logicalEntry_of_ne_null (x : Json) (i : Nat) (h : x ≠ .null) :
    logicalEntry x i = .ok
      { key := i, fallacy := x.prop "fallacy",
        quote := x.prop "quote", explanation := x.prop "explanation" } := by
  cases x <;> first | rfl | exact absurd rfl h

theorem mapFrom_total {α : Type} (f : Json → Nat → Except JSError α) (g : Nat × Json → α)
    (xs : List Json) (hf : ∀ x ∈ xs, ∀ i, f x i = .ok (g (i, x))) (i : Nat) :
    mapFrom f i xs = .ok ((xs.enumFrom i).map g) := by
  induction xs generalizing i with
  | nil => rfl
  | cons x xs ih =>
    have hx := hf x (List.mem_cons_self x xs) i
    have hxs := ih (fun y hy => hf y (List.mem_cons_of_mem x hy)) (i + 1)
    simp only [mapFrom, hx, hxs, bind, Except.bind, pure, Except.pure, List.enumFrom, List.map]

theorem listSection_of_array {α : Type} (out : Json) (k text : String)
    (f : Json → Nat → Except JSError α) (xs : List Json)
    (ht : out.truthy = true) (hv : out.prop k = some (.arr xs)) (hne : xs ≠ []) :
    (do
      let xs := orElse (← member (some out) k) (some (.arr []))
      if strictEqZero (← member xs "length") then
        return ListSection.placeholder text
      else
        let ys := orElse (← member (some out) k) (some (.arr []))
        return ListSection.entries (← callMap ys f))
      = (mapFrom f 0 xs).map ListSection.entries := by
  rw [member_of_truthy out k ht, hv]
  have hlen : ((xs.length : ℕ) : ℚ) ≠ 0 := by
    simpa using hne
  simp [bind, Except.bind, orElse, toBoolean, Json.truthy, member, Json.prop,
    strictEqZero, hlen, callMap, Except.map, pure, Except.pure]

theorem factualSection_of_array (out : Json) (xs : List Json)
    (ht : out.truthy = true) (hv : out.prop "factual_errors" = some (.arr xs))
    (hne : xs ≠ []) (hnn : ∀ x ∈ xs, x ≠ .null) :
    factualSection out = .ok (.entries (xs.enum.map fun p =>
      { key := p.1, statement := p.2.prop "statement",
        correction := p.2.prop "correction", why_wrong := p.2.prop "why_wrong" })) := by
  have := listSection_of_array out "factual_errors"
    "No factual errors found (or none detected)." factualEntry xs ht hv hne
  unfold factualSection
  rw [this, mapFrom_total factualEntry
    (fun p => { key := p.1, statement := p.2.prop "statement",
                correction := p.2.prop "correction", why_wrong := p.2.prop "why_wrong" }) xs
    (fun x hx i => factualEntry_of_ne_null x i (hnn x hx)) 0]
  rfl

theorem logicalSection_of_array (out : Json) (xs : List Json)
    (ht : out.truthy = true) (hv : out.prop "logical_errors" = some (.arr xs))
    (hne : xs ≠ []) (hnn : ∀ x ∈ xs, x ≠ .null) :
    logicalSection out = .ok (.entries (xs.enum.map fun p =>
      { key := p.1, fallacy := p.2.prop "fallacy",
        quote := p.2.prop "quote", explanation := p.2.prop "explanation" })) := by
  have := listSection_of_array out "logical_errors" "None detected." logicalEntry xs ht hv hne
  unfold logicalSection
  rw [this, mapFrom_total logicalEntry
    (fun p => { key := p.1, fallacy := p.2.prop "fallacy",
                quote := p.2.prop "quote", explanation := p.2.prop "explanation" }) xs
    (fun x hx i => logicalEntry_of_ne_null x i (hnn x hx)) 0]
  rfl

theorem renderChild_of_ok (v : JSVal) (h : childOk v = true) :
    renderChild v = .ok (childText v) := by
  simp [renderChild, h]

theorem displayAll_total {α β : Type} (f : α → Except JSError β) (g : α → β) (es : List α)
    (hf : ∀ e ∈ es, f e = .ok (g e)) : displayAll f es = .ok (es.map g) := by
  induction es with
  | nil => rfl
  | cons e es ih =>
    have he := hf e (List.mem_cons_self e es)
    have hes := ih (fun y hy => hf y (List.mem_cons_of_mem e hy))
    simp only [displayAll, he, hes, bind, Except.bind, pure, Except.pure, List.map]

/-- C9 (as amended): for every non-error payload whose `factual_errors`
(respectively `logical_errors`) is a non-empty array in which no element is
`null` and no `statement`, `correction` or `why_wrong` (respectively `fallacy`,
`quote` or `explanation`) is a plain object or an array holding one, the section
renders exactly one entry per element, in input order, the i-th entry showing
the text of the i-th element's three sub-fields; a sub-field that the element
lacks shows no text, a non-empty string shows as itself, and the section does
not fail. -/
theorem list_renders_entries_in_order (out : Json) (xs : List Json)
    (h : showsResults out = true) (hne : xs ≠ []) (hnn : ∀ x ∈ xs, x ≠ .null) :
    (out.prop "factual_errors" = some (.arr xs) →
      (∀ x ∈ xs, childOk (x.prop "statement") = true ∧
        childOk (x.prop "correction") = true ∧ childOk (x.prop "why_wrong") = true) →
      factualDisplayed out = .ok (.entries (xs.enum.map fun p =>
        { key := p.1, statement := childText (p.2.prop "statement"),
          correction := childText (p.2.prop "correction"),
          why_wrong := childText (p.2.prop "why_wrong") }))) ∧
    (out.prop "logical_errors" = some (.arr xs) →
      (∀ x ∈ xs, childOk (x.prop "fallacy") = true ∧
        childOk (x.prop "quote") = true ∧ childOk (x.prop "explanation") = true) →
      logicalDisplayed out = .ok (.entries (xs.enum.map fun p =>
        { key := p.1, fallacy := childText (p.2.prop "fallacy"),
          quote := childText (p.2.prop "quote"),
          explanation := childText (p.2.prop "explanation") }))) ∧
    childText none = [] ∧
    (∀ t : String, t ≠ "" → childText (some (.str t)) = [.text t]) := by
  have ht := truthy_of_showsResults out h
  refine ⟨?_, ?_, rfl, ?_⟩
  · intro hv hok
    unfold factualDisplayed
    rw [factualSection_of_array out xs ht hv hne hnn]
    simp only [bind, Except.bind, displaySection]
    rw [displayAll_total displayFactualEntry
      (fun e => { key := e.key, statement := childText e.statement,
                  correction := childText e.correction,
                  why_wrong := childText e.why_wrong })]
    · simp [List.map_map, Function.comp_def, pure, Except.pure]
    · intro e he
      obtain ⟨p, hp, rfl⟩ := List.mem_map.1 he
      obtain ⟨h1, h2, h3⟩ := hok p.2 (List.snd_mem_of_mem_enum hp)
      simp [displayFactualEntry, renderChild_of_ok _ h1, renderChild_of_ok _ h2,
        renderChild_of_ok _ h3, bind, Except.bind, pure, Except.pure]
  · intro hv hok
    unfold logicalDisplayed
    rw [logicalSection_of_array out xs ht hv hne hnn]
    simp only [bind, Except.bind, displaySection]
    rw [displayAll_total displayLogicalEntry
      (fun e => { key := e.key, fallacy := childText e.fallacy,
                  quote := childText e.quote,
                  explanation := childText e.explanation })]
    · simp [List.map_map, Function.comp_def, pure, Except.pure]
    · intro e he
      obtain ⟨p, hp, rfl⟩ := List.mem_map.1 he
      obtain ⟨h1, h2, h3⟩ := hok p.2 (List.snd_mem_of_mem_enum hp)
      simp [displayLogicalEntry, renderChild_of_ok _ h1, renderChild_of_ok _ h2,
        renderChild_of_ok _ h3, bind, Except.bind, pure, Except.pure]
  · intro t hne
    simp [childText, Json.text, hne]

/-- C9 witness: two factual errors, the second without `correction`. -/
theorem list_renders_entries_in_order_witness :
    factualDisplayed (.obj [("factual_errors", .arr [
        .obj [("statement", .str "a"), ("correction", .str "b"), ("why_wrong", .str "c")],
        .obj [("statement", .str "d"), ("why_wrong", .str "e")]])])
      = .ok (.entries [
        { key := 0, statement := [.text "a"], correction := [.text "b"],
          why_wrong := [.text "c"] },
        { key := 1, statement := [.text "d"], correction := [],
          why_wrong := [.text "e"] }]) :=
  (list_renders_entries_in_order
    (.obj [("factual_errors", .arr [
        .obj [("statement", .str "a"), ("correction", .str "b"), ("why_wrong", .str "c")],
        .obj [("statement", .str "d"), ("why_wrong", .str "e")]])])
    [.obj [("statement", .str "a"), ("correction", .str "b"), ("why_wrong", .str "c")],
     .obj [("statement", .str "d"), ("why_wrong", .str "e")]]
    rfl (by simp) (by simp)).1 rfl (by decide)

/-- C9 (as stated) fails: for the non-error payload whose `factual_errors`
(respectively `logical_errors`) is the one-element array holding `null`, reading
the first sub-field of `null` throws a TypeError; and for the one whose single
element has a plain object as `statement`, React refuses that child. In both
cases no entry is rendered and the section fails. -/
theorem null_element_throws :
    showsResults (.obj [("factual_errors", .arr [.null])]) = true ∧
    factualSection (.obj [("factual_errors", .arr [.null])])
      = .error (.typeError "Cannot read properties of null, reading statement") ∧
    factualDisplayed (.obj [("factual_errors", .arr [.null])])
      = .error (.typeError "Cannot read properties of null, reading statement") ∧
    logicalDisplayed (.obj [("logical_errors", .arr [.null])])
      = .error (.typeError "Cannot read properties of null, reading fallacy") ∧
    factualDisplayed (.obj [("factual_errors",
        .arr [.obj [("statement", .obj [("a", .num (.fin 1))])]])])
      = .error (.reactError "Objects are not valid as a React child") :=
  ⟨rfl, rfl, rfl, rfl, rfl⟩

theorem bind_eq_ok {α β : Type} (x : Except JSError α) (f : α → Except JSError β) (b : β)
    (h : (x >>= f) = .ok b) : ∃ a, x = .ok a ∧ f a = .ok b := by
  cases x with
  | error e => cases h
  | ok a => exact ⟨a, rfl, h⟩

theorem childOk_of_falsy (v : JSVal) (h : toBoolean v = false) : childOk v = true := by
  cases v with
  | none => rfl
  | some j => cases j <;> first | rfl | cases h

theorem renderChild_orElse (v : JSVal) (text : String) (hne : text ≠ "")
    (hv : childOk v = true) :
    renderChild (orElse v (some (.str text)))
      = .ok (if toBoolean v then childText v else [.text text]) := by
  unfold orElse
  split
  · exact renderChild_of_ok v hv
  · simp [renderChild, childOk, Json.displayable, childText, Json.text, hne]

/-- C10 (as amended): for every non-error payload on which the page renders (the
score memo completes, both list sections render, and neither `summary` nor
`score_reasoning` is a plain object or an array holding one), the summary text
shown is the payload's `summary` when that value is truthy and the placeholder
`No summary returned.` when it is falsy (absent, `null`, `false`, 0 or empty);
likewise the reasoning text is `score_reasoning` or `No reasoning returned.`.
In particular a non-empty string is shown as it is and an absent or empty one
shows the placeholder. -/
theorem text_falls_back_to_placeholder (s : State) (sc : Option JSNum)
    (f : ListSection FactualShown) (l : ListSection LogicalShown)
    (h : showsResults s.out = true) (hsc : score s.out = .ok sc)
    (hf : factualDisplayed s.out = .ok f) (hl : logicalDisplayed s.out = .ok l)
    (hs : childOk (s.out.prop "summary") = true)
    (hr : childOk (s.out.prop "score_reasoning") = true) :
    render s = .ok
      { overlay := LoadingOverlay s.loading, inputValue := s.url,
        buttonDisabled := s.loading,
        buttonLabel := if s.loading then "Working..." else "Analyze",
        banner := .text (childText (s.out.prop "error")),
        results := .element
          { gauge := match sc with
              | some x => .element { value := percent x, label := x }
              | none => .text [],
            reasoning :=
              if toBoolean (s.out.prop "score_reasoning")
              then childText (s.out.prop "score_reasoning")
              else [.text "No reasoning returned."],
            summary :=
              if toBoolean (s.out.prop "summary")
              then childText (s.out.prop "summary")
              else [.text "No summary returned."],
            factual := f, logical := l } } ∧
    (∀ v : JSVal, (v = none ∨ v = some .null ∨ v = some (.bool false) ∨
        v = some (.num (.fin 0)) ∨ v = some (.str "")) →
      (s.out.prop "summary" = v →
        (if toBoolean (s.out.prop "summary") then childText (s.out.prop "summary")
          else [TextNode.text "No summary returned."]) = [.text "No summary returned."]) ∧
      (s.out.prop "score_reasoning" = v →
        (if toBoolean (s.out.prop "score_reasoning")
          then childText (s.out.prop "score_reasoning")
          else [TextNode.text "No reasoning returned."]) = [.text "No reasoning returned."])) ∧
    (∀ t : String, t ≠ "" →
      (s.out.prop "summary" = some (.str t) →
        (if toBoolean (s.out.prop "summary") then childText (s.out.prop "summary")
          else [TextNode.text "No summary returned."]) = [.text t]) ∧
      (s.out.prop "score_reasoning" = some (.str t) →
        (if toBoolean (s.out.prop "score_reasoning")
          then childText (s.out.prop "score_reasoning")
          else [TextNode.text "No reasoning returned."]) = [.text t])) := by
  refine ⟨?_, ?_, ?_⟩
  rotate_left
  · intro v hv
    have hfalse : toBoolean v = false := by
      rcases hv with rfl | rfl | rfl | rfl | rfl <;> rfl
    exact ⟨fun e => by rw [e, hfalse]; rfl, fun e => by rw [e, hfalse]; rfl⟩
  · intro t hne
    have htrue : toBoolean (some (.str t)) = true := by simp [toBoolean, Json.truthy, hne]
    have htext : childText (some (.str t)) = [.text t] := by simp [childText, Json.text, hne]
    exact ⟨fun e => by rw [e, htrue, htext]; rfl, fun e => by rw [e, htrue, htext]; rfl⟩
  · have ht := truthy_of_showsResults s.out h
    have hb : toBoolean (some s.out) = true := ht
    have he : toBoolean (s.out.prop "error") = false := by
      simp only [showsResults, Bool.and_eq_true, Bool.not_eq_true'] at h
      exact h.2
    have ho : optMember (some s.out) "error" = s.out.prop "error" := by
      cases s.out <;> rfl
    obtain ⟨secF, hsecF, hdF⟩ := bind_eq_ok _ _ _ hf
    obtain ⟨secL, hsecL, hdL⟩ := bind_eq_ok _ _ _ hl
    have hrs := renderChild_orElse (s.out.prop "score_reasoning") "No reasoning returned."
      (by decide) hr
    have hss := renderChild_orElse (s.out.prop "summary") "No summary returned."
      (by decide) hs
    have hbn := renderChild_of_ok _ (childOk_of_falsy _ he)
    have hg : renderChild (some (.bool false)) = .ok [] := rfl
    cases sc <;>
      simp [render, App, hsc, bannerSlot, resultsSlot, renderResults, reasoningText,
        summaryText, member_of_truthy s.out _ ht, ho, he, hb, hsecF, hsecL, gaugeSlot,
        displayView, displaySlot, displayResults, hrs, hss, hbn, hg, hdF, hdL,
        bind, Except.bind, pure, Except.pure]

/-- C10 witness: a payload with a summary and an empty `score_reasoning`. -/
theorem text_falls_back_to_placeholder_witness :
    render { url := "u", loading := false,
             out := .obj [("summary", .str "S"), ("score_reasoning", .str "")] }
      = .ok
      { overlay := none, inputValue := "u", buttonDisabled := false, buttonLabel := "Analyze",
        banner := .text [],
        results := .element
          { gauge := .text [],
            reasoning := [.text "No reasoning returned."],
            summary := [.text "S"],
            factual := .placeholder "No factual errors found (or none detected).",
            logical := .placeholder "None detected." } } :=
  (text_falls_back_to_placeholder
    { url := "u", loading := false,
      out := .obj [("summary", .str "S"), ("score_reasoning", .str "")] }
    none (.placeholder "No factual errors found (or none detected).")
    (.placeholder "None detected.") rfl rfl rfl rfl rfl rfl).1

/-- C10 (as stated) fails: with `summary` the number 0, which is neither absent
nor empty, the text shown is the placeholder and not the summary; with `summary`
a plain object React refuses the child; with a summary next to a
`factual_errors` string the list throws, and next to a `propaganda_score` that
cannot be coerced the score memo throws, so that in these three cases no
summary text is shown at all. -/
theorem non_string_summary_not_shown :
    (Json.obj [("summary", .num (.fin 0))]).prop "summary" = some (.num (.fin 0)) ∧
    render { url := "", loading := false, out := .obj [("summary", .num (.fin 0))] }
      = .ok
      { overlay := none, inputValue := "", buttonDisabled := false, buttonLabel := "Analyze",
        banner := .text [],
        results := .element
          { gauge := .text [],
            reasoning := [.text "No reasoning returned."],
            summary := [.text "No summary returned."],
            factual := .placeholder "No factual errors found (or none detected).",
            logical := .placeholder "None detected." } } ∧
    showsResults (.obj [("summary", .obj [("a", .num (.fin 1))])]) = true ∧
    render { url := "", loading := false,
             out := .obj [("summary", .obj [("a", .num (.fin 1))])] }
      = .error (.reactError "Objects are not valid as a React child") ∧
    showsResults (.obj [("summary", .str "S"), ("factual_errors", .str "abc")]) = true ∧
    render { url := "", loading := false,
             out := .obj [("summary", .str "S"), ("factual_errors", .str "abc")] }
      = .error (.typeError "map is not a function") ∧
    showsResults (.obj [("summary", .str "S"),
      ("propaganda_score", .obj [("toString", .num (.fin 1))])]) = true ∧
    render { url := "", loading := false,
             out := .obj [("summary", .str "S"),
               ("propaganda_score", .obj [("toString", .num (.fin 1))])] }
      = .error (.typeError "Cannot convert object to primitive value") :=
  ⟨rfl, rfl, rfl, rfl, rfl, rfl, rfl, rfl⟩

/-! ## The error banner: properties -/

theorem truthy_of_prop_error (out e : Json) (he : out.prop "error" = some e) :
    out.truthy = true := by
  cases out <;> first | rfl | simp [Json.prop] at he

/-- C4 (as amended): for every backend payload whose `error` field is truthy (any
non-empty string in particular), whenever the score memo completes the view
has the error banner holding the value of that field and has none of the
result sections. -/
theorem truthy_error_renders_banner_only (s : State) (e : Json) (sc : Option JSNum)
    (he : s.out.prop "error" = some e) (ht : e.truthy = true) (hsc : score s.out = .ok sc) :
    App s = .ok
      { overlay := LoadingOverlay s.loading, inputValue := s.url,
        buttonDisabled := s.loading,
        buttonLabel := if s.loading then "Working..." else "Analyze",
        banner := .element (some e), results := .value (some (.bool false)) } := by
  have hout := truthy_of_prop_error s.out e he
  have hm := member_of_truthy s.out "error" hout
  have ho : optMember (some s.out) "error" = some e := by
    rw [← he]
    cases s.out <;> rfl
  simp [App, hsc, bannerSlot, resultsSlot, ho, hm, he, toBoolean, ht, hout, bind, Except.bind,
    pure, Except.pure]

/-- C4 witness: the payload with error `captions unavailable` renders that
message in the banner and nothing else. -/
theorem truthy_error_renders_banner_only_witness :
    App { url := "u", out := .obj [("error", .str "captions unavailable")], loading := false }
      = .ok
      { overlay := none, inputValue := "u", buttonDisabled := false, buttonLabel := "Analyze",
        banner := .element (some (.str "captions unavailable")),
        results := .value (some (.bool false)) } :=
  truthy_error_renders_banner_only
    { url := "u", out := .obj [("error", .str "captions unavailable")], loading := false }
    (.str "captions unavailable") none rfl (by decide) rfl

/-- C4 (as stated) fails: the payload whose `error` field is the empty string
contains an `error` field, yet the view has no banner and has the result
sections, each in its empty state. -/
theorem empty_error_renders_results :
    App { url := "", out := .obj [("error", .str "")], loading := false }
      = .ok
      { overlay := none, inputValue := "", buttonDisabled := false, buttonLabel := "Analyze",
        banner := .value (some (.str "")),
        results := .element
          { gauge := .value (some (.bool false)),
            reasoning := some (.str "No reasoning returned."),
            summary := some (.str "No summary returned."),
            factual := .placeholder "No factual errors found (or none detected).",
            logical := .placeholder "None detected." } } :=
  rfl

/-! ## The request lifecycle: properties -/

theorem ErrorName.text_length_pos (n : ErrorName) : 0 < n.text.length := by
  cases n <;> decide

theorem Thrown.toString_ne_empty (e : Thrown) : e.toString ≠ "" := by
  intro h
  have hl := congrArg String.length h
  have hpos := ErrorName.text_length_pos e.name
  have h0 : "".length = 0 := rfl
  unfold Thrown.toString at hl
  split at hl
  · omega
  · simp only [String.length_append] at hl
    omega

theorem phase_loading_iff (st : State) : phase st = .Loading ↔ st.loading = true := by
  unfold phase
  cases st.loading
  · simp only [Bool.false_eq_true, if_false, iff_false]
    split_ifs <;> simp
  · simp

theorem settle_ui (s : Sys) (i : Nat) (o : Outcome) (h : i < s.pending.length) :
    (step s (.settle i o)).ui = { url := s.ui.url, out := o.result, loading := false } := by
  simp [step, analyzeSettle, h]

theorem phase_of_truthy (u : String) (d : Json) (h : d.truthy = true) :
    phase { url := u, out := d, loading := false } = .Success ∨
    phase { url := u, out := d, loading := false } = .Failure := by
  unfold phase
  by_cases hb : showsBanner d = true
  · right
    simp [hb]
  · left
    have hr : showsResults d = true := by
      have he : optMember (some d) "error" = d.prop "error" := by cases d <;> rfl
      simp only [showsBanner, he] at hb
      have ht : toBoolean (some d) = true := h
      simp [showsResults, ht, hb]
    simp [hb, hr]

theorem phase_of_falsy (u : String) (d : Json) (h : d.truthy = false) :
    phase { url := u, out := d, loading := false } = .Idle := by
  have hb : showsBanner d = false := by
    cases d <;> first | rfl | cases h
  have hr : showsResults d = false := by
    simp [showsResults, toBoolean, h]
  simp [phase, hb, hr]

theorem phase_of_thrown (u : String) (e : Thrown) :
    phase { url := u, out := (Outcome.throws e).result, loading := false } = .Failure := by
  have hb : showsBanner (Outcome.throws e).result = true := by
    simp [showsBanner, Outcome.result, optMember, Json.prop, lookupKey, toBoolean, Json.truthy,
      Thrown.toString_ne_empty e]
  simp [phase, hb]

/-- C5 (as amended): for every way an outstanding request can settle, Loading is
cleared; after a thrown failure the phase is Failure; after a truthy response
body (any object or array, a non-empty string, a non-zero number, `true`) the
phase is Success or Failure; after a falsy body (`null`, `false`, 0, the empty
string) neither the banner nor the result sections are selected and the phase is
Idle. The phase is never Loading. -/
theorem settle_reaches_terminal_phase (s : Sys) (i : Nat) (h : i < s.pending.length) :
    (∀ o : Outcome, (step s (.settle i o)).ui.loading = false ∧
      phase (step s (.settle i o)).ui ≠ .Loading) ∧
    (∀ e : Thrown, phase (step s (.settle i (.throws e))).ui = .Failure) ∧
    (∀ d : Json, d.truthy = true →
      phase (step s (.settle i (.body d))).ui = .Success ∨
      phase (step s (.settle i (.body d))).ui = .Failure) ∧
    (∀ d : Json, d.truthy = false → phase (step s (.settle i (.body d))).ui = .Idle) := by
  refine ⟨?_, ?_, ?_, ?_⟩
  · intro o
    rw [settle_ui s i o h]
    exact ⟨rfl, fun hp => by simpa using (phase_loading_iff _).1 hp⟩
  · intro e
    rw [settle_ui s i _ h]
    exact phase_of_thrown _ e
  · intro d hd
    rw [settle_ui s i _ h]
    exact phase_of_truthy _ d hd
  · intro d hd
    rw [settle_ui s i _ h]
    exact phase_of_falsy _ d hd

/-- C5 witness: the first request settles with an analysis payload. -/
theorem settle_reaches_terminal_phase_witness :
    phase (step (step Sys.initial .submit)
      (.settle 0 (.body (.obj [("summary", .str "S")])))).ui = .Success ∨
    phase (step (step Sys.initial .submit)
      (.settle 0 (.body (.obj [("summary", .str "S")])))).ui = .Failure :=
  (settle_reaches_terminal_phase (step Sys.initial .submit) 0 (by decide)).2.2.1
    (.obj [("summary", .str "S")]) rfl

/-- C5 (as stated) fails: when the response body is the JSON text `null`, the
request settles with Loading cleared and the phase is Idle, with neither the
banner nor the result sections rendered. -/
theorem null_body_settles_to_idle :
    phase (step (step Sys.initial .submit) (.settle 0 (.body .null))).ui = .Idle ∧
    App (step (step Sys.initial .submit) (.settle 0 (.body .null))).ui
      = .ok
      { overlay := none, inputValue := "", buttonDisabled := false, buttonLabel := "Analyze",
        banner := .value none, results := .value (some .null) } :=
  ⟨rfl, rfl⟩

/-- C6: when the awaited call of an outstanding request throws an exception with
name `n` and message `m`, the result becomes the object whose `error` is the
stringified failure (the name alone when the message is empty, otherwise the
name, a colon, a space and the message), Loading is cleared, the phase is
Failure, and the page shows that string in the banner, no result section, no
overlay, and the submit button enabled. -/
theorem thrown_failure_is_rendered (s : Sys) (i : Nat) (n : ErrorName) (m label t : String)
    (h : i < s.pending.length)
    (hn : (n = .TypeError ∧ label = "TypeError") ∨ (n = .SyntaxError ∧ label = "SyntaxError") ∨
      (n = .AbortError ∧ label = "AbortError"))
    (ht : t = if m = "" then label else label ++ ": " ++ m) :
    (step s (.settle i (.throws { name := n, message := m }))).ui.out
      = .obj [("error", .str t)] ∧
    (step s (.settle i (.throws { name := n, message := m }))).ui.loading = false ∧
    phase (step s (.settle i (.throws { name := n, message := m }))).ui = .Failure ∧
    App (step s (.settle i (.throws { name := n, message := m }))).ui = .ok
      { overlay := none, inputValue := s.ui.url, buttonDisabled := false,
        buttonLabel := "Analyze",
        banner := .element (some (.str t)),
        results := .value (some (.bool false)) } ∧
    render (step s (.settle i (.throws { name := n, message := m }))).ui = .ok
      { overlay := none, inputValue := s.ui.url, buttonDisabled := false,
        buttonLabel := "Analyze",
        banner := .element [.text t],
        results := .text [] } := by
  have hts : Thrown.toString { name := n, message := m } = t := by
    rcases hn with ⟨rfl, rfl⟩ | ⟨rfl, rfl⟩ | ⟨rfl, rfl⟩ <;> rw [ht] <;> rfl
  have hne : t ≠ "" := hts ▸ Thrown.toString_ne_empty _
  have hA : App { url := s.ui.url, out := .obj [("error", .str t)], loading := false } = .ok
      { overlay := none, inputValue := s.ui.url, buttonDisabled := false,
        buttonLabel := "Analyze",
        banner := .element (some (.str t)),
        results := .value (some (.bool false)) } := by
    simp [App, score, toNumber, optMember, Json.prop, lookupKey, JSNum.isFinite,
      bannerSlot, resultsSlot, member, toBoolean, Json.truthy, hne,
      LoadingOverlay, bind, Except.bind, pure, Except.pure]
  rw [settle_ui s i _ h]
  have hres : (Outcome.throws { name := n, message := m }).result
      = .obj [("error", .str t)] := by
    simp [Outcome.result, hts]
  rw [hres]
  refine ⟨rfl, rfl, ?_, hA, ?_⟩
  · have := phase_of_thrown s.ui.url { name := n, message := m }
    rwa [hres] at this
  · simp [render, hA, displayView, displaySlot, renderChild, childOk, childText,
      Json.displayable, Json.text, hne, bind, Except.bind, pure, Except.pure]

/-- C6 witness: the first request fails with a network TypeError. -/
theorem thrown_failure_is_rendered_witness :
    render (step (step (step Sys.initial (.input "https://www.youtube.com/watch?v=abc")) .submit)
      (.settle 0 (.throws { name := .TypeError, message := "Failed to fetch" }))).ui = .ok
      { overlay := none, inputValue := "https://www.youtube.com/watch?v=abc",
        buttonDisabled := false, buttonLabel := "Analyze",
        banner := .element [.text "TypeError: Failed to fetch"],
        results := .text [] } :=
  (thrown_failure_is_rendered
    (step (step Sys.initial (.input "https://www.youtube.com/watch?v=abc")) .submit) 0
    .TypeError "Failed to fetch" "TypeError" "TypeError: Failed to fetch" (by decide)
    (Or.inl ⟨rfl, rfl⟩) (by decide)).2.2.2.2

theorem reachable_loading_out (s : Sys) (h : Reachable s) (hl : s.ui.loading = true) :
    s.ui.out = .null := by
  induction h with
  | initial => rfl
  | step s e _ ih =>
    cases e with
    | input text => exact ih hl
    | submit => rfl
    | settle i o =>
      simp only [step, analyzeSettle] at hl ⊢
      split
      · rename_i hi
        simp [hi] at hl
      · rename_i hi
        simp only [hi, if_false] at hl
        exact ih hl

/-- C7: in every state reachable from the initial state through keystrokes,
submissions and settlements, `loading` implies that `out` is `null`, so that
neither the banner nor the result sections are shown while Loading; and a
submission from such a state always ends in Loading with `out` cleared. -/
theorem loading_implies_no_result (s : Sys) (h : Reachable s) :
    (s.ui.loading = true →
      s.ui.out = .null ∧ showsBanner s.ui.out = false ∧ showsResults s.ui.out = false) ∧
    (step s .submit).ui.loading = true ∧ (step s .submit).ui.out = .null := by
  refine ⟨fun hl => ?_, ?_⟩
  · rw [reachable_loading_out s h hl]
    exact ⟨rfl, rfl, rfl⟩
  · exact ⟨rfl, rfl⟩

/-- C7 witness: the state right after the first submission. -/
theorem loading_implies_no_result_witness :
    (step (step Sys.initial (.input "https://www.youtube.com/watch?v=abc")) .submit).ui.out
      = .null :=
  ((loading_implies_no_result
    (step (step Sys.initial (.input "https://www.youtube.com/watch?v=abc")) .submit)
    (.step _ _ (.step _ _ .initial))).1 rfl).1

theorem render_buttonDisabled (s : State) (p : Page) (h : render s = .ok p) :
    p.buttonDisabled = s.loading := by
  obtain ⟨v, hv, hp⟩ := bind_eq_ok _ _ _ h
  unfold App at hv
  obtain ⟨sc, _, hv⟩ := bind_eq_ok _ _ _ hv
  obtain ⟨b, _, hv⟩ := bind_eq_ok _ _ _ hv
  obtain ⟨r, _, hv⟩ := bind_eq_ok _ _ _ hv
  unfold displayView at hp
  obtain ⟨b2, _, hp⟩ := bind_eq_ok _ _ _ hp
  obtain ⟨r2, _, hp⟩ := bind_eq_ok _ _ _ hp
  cases hv
  cases hp
  rfl

theorem userSubmit_when_enabled (validUrl : String → Bool) (s : Sys) (p : Page)
    (hp : render s.ui = .ok p) (hl : s.ui.loading = false)
    (hu : s.ui.url ≠ "") (hv : validUrl s.ui.url = true) :
    userSubmit validUrl s = analyzeStart s := by
  have hd := render_buttonDisabled s.ui p hp
  have hi : p.inputValue = s.ui.url := by
    obtain ⟨v, hv, hp⟩ := bind_eq_ok _ _ _ hp
    unfold App at hv
    obtain ⟨sc, _, hv⟩ := bind_eq_ok _ _ _ hv
    obtain ⟨b, _, hv⟩ := bind_eq_ok _ _ _ hv
    obtain ⟨r, _, hv⟩ := bind_eq_ok _ _ _ hv
    unfold displayView at hp
    obtain ⟨b2, _, hp⟩ := bind_eq_ok _ _ _ hp
    obtain ⟨r2, _, hp⟩ := bind_eq_ok _ _ _ hp
    cases hv
    cases hp
    rfl
  simp [userSubmit, hp, hd, hl, hi, hu, hv, step]

theorem reachable_userSubmit (validUrl : String → Bool) (s : Sys) (h : Reachable s) :
    Reachable (userSubmit validUrl s) := by
  unfold userSubmit
  split
  · exact h
  · split
    · exact h
    · split
      · exact h
      · exact .step s .submit h

theorem dispatch_while_loading_issues_request :
    (step (step (step Sys.initial (.input "https://www.youtube.com/watch?v=abc")) .submit)
      .submit).pending
      = ["https://www.youtube.com/watch?v=abc", "https://www.youtube.com/watch?v=abc"] :=
  rfl

/-- C8: a submission attempted on the page while the phase is Loading has no
effect, because the rendered submit button is disabled: the state is unchanged,
no second request is issued, and every later settlement has the result it
would have had. The same attempt on a rendered page that is not Loading, with
a valid url, does issue a request. -/
theorem submit_while_loading_is_noop (validUrl : String → Bool) (s : Sys)
    (h : phase s.ui = .Loading) :
    (∀ p : Page, render s.ui = .ok p → p.buttonDisabled = true) ∧
    userSubmit validUrl s = s ∧
    (userSubmit validUrl s).pending = s.pending ∧
    (∀ (i : Nat) (o : Outcome),
      step (userSubmit validUrl s) (.settle i o) = step s (.settle i o)) ∧
    (∀ (t : Sys) (p : Page), render t.ui = .ok p → t.ui.loading = false →
      t.ui.url ≠ "" → validUrl t.ui.url = true →
      userSubmit validUrl t =
        { ui := { url := t.ui.url, out := .null, loading := true },
          pending := t.pending ++ [t.ui.url] }) := by
  have hl : s.ui.loading = true := (phase_loading_iff s.ui).1 h
  have hd : ∀ p : Page, render s.ui = .ok p → p.buttonDisabled = true :=
    fun p hp => (render_buttonDisabled s.ui p hp).trans hl
  have hs : userSubmit validUrl s = s := by
    unfold userSubmit
    cases hr : render s.ui with
    | error e => rfl
    | ok p => simp [hd p hr]
  exact ⟨hd, hs, by rw [hs], fun i o => by rw [hs],
    fun t p hp hl hu hv => userSubmit_when_enabled validUrl t p hp hl hu hv⟩

/-- C8 witness: a second attempt right after the first submission leaves the one
request in flight. -/
theorem submit_while_loading_is_noop_witness :
    (userSubmit (fun _ => true)
      (step (step Sys.initial (.input "https://www.youtube.com/watch?v=abc")) .submit)).pending
      = ["https://www.youtube.com/watch?v=abc"] :=
  ((submit_while_loading_is_noop (fun _ => true)
    (step (step Sys.initial (.input "https://www.youtube.com/watch?v=abc")) .submit) rfl).2.2.1
    ).trans rfl

end TruthScanner
